import Mathlib

/-!
Shallow embedding of `code/scripts/evaluate_submission.py`, the
submission-validation and evaluation harness for the rice environment.

Modelling conventions:
* numpy arrays (time-steps × regions) are `List (List ℚ)`; numeric values
  are exact rationals.
* A Python exception raised by an operation is modelled by `Option`:
  `none` is "this operation raised".
* The external collaborators (unit-test subprocess, yaml parsing, the
  backend modules `create_trainer`, `load_model_checkpoints`,
  `fetch_episode_states`, and the trainer method `graceful_close`) are opaque;
  an `Env` record says, for each of them, whether the call succeeds, and
  for `fetch_episode_states` what each call returns (`none` = raises).
-/

namespace Rice

/-- A numpy array of shape (time-steps, regions): a list of rows. -/
abbrev Arr := List (List ℚ)

/-- States of one episode: the mapping feature-name → array returned by
`fetch_episode_states`.  A feature missing from the mapping makes lookup
raise (KeyError), hence the `Option` of `List.lookup`. -/
abbrev EpState := List (String × Arr)

/-- `_METRICS_TO_LABEL_DICT`: the fixed, ordered registry of the eight
features, each with its display label and rounding precision. -/
def METRICS_TO_LABEL_DICT : List (String × String × Nat) :=
  [("reward_all_regions", "Total Episode Reward", 2),
   ("global_temperature", "Global Temperature Rise", 2),
   ("global_carbon_mass", "Global Carbon Mass", 0),
   ("capital_all_regions", "Total Capital", 0),
   ("production_all_regions", "Total Production", 0),
   ("gross_output_all_regions", "Total Gross Output", 0),
   ("investment_all_regions", "Total Investment", 0),
   ("abatement_cost_all_regions", "Total Abatement Cost", 2)]

/-- A metric value as produced by `perform_format`: a Python `int` for
precision 0, otherwise a floating value (modelled as an exact rational). -/
inductive Value where
  | int : ℤ → Value
  | rat : ℚ → Value

/-- Floor of a rational, computed as Euclidean division of numerator by
(positive) denominator. -/
def ratFloor (q : ℚ) : ℤ := Int.ediv q.num q.den

/-- Round a rational to the nearest integer, ties to even: the rounding
rule of both `np.round` and the Python builtin `round`. -/
def roundHalfEven (q : ℚ) : ℤ :=
  let f := ratFloor q
  let frac := q - (f : ℚ)
  if frac < 1 / 2 then f
  else if 1 / 2 < frac then f + 1
  else if f % 2 = 0 then f else f + 1

/-- `np.round(q, k)`: half-to-even rounding at `k` decimal places
(idealised over exact rationals). -/
def npRound (q : ℚ) (k : Nat) : ℚ :=
  ((roundHalfEven (q * (10 : ℚ) ^ k) : ℤ) : ℚ) / (10 : ℚ) ^ k

/-- Python `int()` applied to a (real) number: truncation toward zero. -/
def pyInt (q : ℚ) : ℤ := Int.tdiv q.num q.den

/-- `perform_format(val, num_decimal_places)` (source lines 210–218):
round with `np.round`; precision 0 converts the result with `int()`.
The source line `assert num_decimal_places >= 0` holds by the `Nat` type. -/
def perform_format (val : ℚ) (numDecimalPlaces : Nat) : Value :=
  let rounded := npRound val numDecimalPlaces
  if numDecimalPlaces = 0 then Value.int (pyInt rounded) else Value.rat rounded

/-- The five companion files required when the `.warpdrive` marker is
present, in the check order of the source. -/
def warpdriveRequired : List String :=
  ["rice.py", "rice_helpers.py", "rice_cuda.py", "rice_step.cu",
   "rice_warpdrive.yaml"]

/-- The three companion files required when the `.rllib` marker is
present, in the check order of the source. -/
def rllibRequired : List String :=
  ["rice.py", "rice_helpers.py", "rice_rllib.yaml"]

/-- The `for file in [...]` loop body of `validate_dir`: walk the required
files in order; the first one absent from `files` yields failure with a
comment naming it, otherwise success with "Valid submission" (each
complete iteration re-sets `success = True`, so finishing the loop without
a break is exactly the base case here; the source only runs this on the
non-empty literal lists above). -/
def checkRequiredFiles (files : List String) : List String → Bool × String
  | [] => (true, "Valid submission")
  | f :: rest =>
    if files.contains f then checkRequiredFiles files rest
    else (false, f ++ " is not present in the results directory!")

/-- `validate_dir(results_dir)` (source lines 96–145), as a function of
`os.listdir(results_dir)`.  Returns (framework, success, comment); the
`.warpdrive` marker is tested first, `.rllib` only in the `elif`. -/
def validate_dir (files : List String) : Option String × Bool × String :=
  if files.contains ".warpdrive" then
    (some "warpdrive", checkRequiredFiles files warpdriveRequired)
  else if files.contains ".rllib" then
    (some "rllib", checkRequiredFiles files rllibRequired)
  else
    (none, false, "Missing identifier file!")

/-- The episode loop of `compute_metrics`: `fetch_episode_states` is
called once per episode id `0, ..., n-1`; a raise on any call (a `none`)
aborts the whole collection. -/
def fetchEpisodes (fetch : Nat → Option EpState) : Nat → Option (List EpState)
  | 0 => some []
  | n + 1 =>
    match fetchEpisodes fetch n with
    | none => none
    | some earlier =>
      match fetch n with
      | none => none
      | some st => some (earlier ++ [st])

/-- `np.sum` of a whole array: sum over time and regions; total (never
raises, also on empty arrays). -/
def arrSum (a : Arr) : ℚ := (a.map List.sum).sum

/-- The per-episode scalar for one feature (the three-way branch of
`compute_metrics`, source lines 170–188):
`global_temperature` is `array[-1, 0] - array[0, 0]`,
`global_carbon_mass` is `array[-1, 0]`,
every other feature is `np.sum(array)`.
`none` models the KeyError of a missing feature or the IndexError of an
array without the indexed entries. -/
def featureScalar (feature : String) (st : EpState) : Option ℚ :=
  if feature = "global_temperature" then
    match st.lookup feature with
    | none => none
    | some a =>
      match a.getLast?, a.head? with
      | some lastRow, some firstRow =>
        match lastRow.head?, firstRow.head? with
        | some y, some x => some (y - x)
        | _, _ => none
      | _, _ => none
  else if feature = "global_carbon_mass" then
    match st.lookup feature with
    | none => none
    | some a =>
      match a.getLast? with
      | none => none
      | some lastRow => lastRow.head?
  else
    match st.lookup feature with
    | none => none
    | some a => some (arrSum a)

/-- The list `feature_values` for one feature across all episodes
(`none` as soon as the entry of one episode raises). -/
def scalarsFor (feature : String) : List EpState → Option (List ℚ)
  | [] => some []
  | st :: rest =>
    match featureScalar feature st with
    | none => none
    | some v =>
      match scalarsFor feature rest with
      | none => none
      | some vs => some (v :: vs)

/-- `np.mean(feature_values)`, i.e. sum divided by length.  On an empty
list `np.mean` yields `nan`, which in this program inevitably raises later
in `perform_format` (`int(nan)`) because the registry holds 0-precision
entries, with the identical observable outcome (the whole `try` block
fails); the poisoning is therefore modelled as the failure `none` here. -/
def npMean (xs : List ℚ) : Option ℚ :=
  match xs with
  | [] => none
  | _ :: _ => some (xs.sum / (xs.length : ℚ))

/-- The feature loop of `compute_metrics` (source lines 167–197): for each
registry entry in order, gather the per-episode scalars, average them, and
record label ↦ formatted mean; any raise aborts everything. -/
def aggregateFeatures (states : List EpState) :
    List (String × String × Nat) → Option (List (String × Value))
  | [] => some []
  | (feature, label, prec) :: rest =>
    match scalarsFor feature states with
    | none => none
    | some vals =>
      match npMean vals with
      | none => none
      | some mean =>
        match aggregateFeatures states rest with
        | none => none
        | some tail => some ((label, perform_format mean prec) :: tail)

/-- Everything inside the `try:` of `compute_metrics`: the episode loop
followed by the feature-aggregation loop. -/
def computeMetricsCore (fetch : Nat → Option EpState) (numEpisodes : Nat) :
    Option (List (String × Value)) :=
  match fetchEpisodes fetch numEpisodes with
  | none => none
  | some states => aggregateFeatures states METRICS_TO_LABEL_DICT

/-- `compute_metrics(fetch_episode_states, trainer, framework,
num_episodes)` (source lines 148–207).  The trainer is opaque and carried
inside `fetch`; the entry asserts of the source (trainer and fetch not None,
framework one of "rllib"/"warpdrive") hold at every call site reached from
`perform_evaluation`.  The `except` arm turns any raise into
success=False, the fixed comment, and `eval_metrics = ` the empty dict. -/
def compute_metrics (fetch : Nat → Option EpState) (numEpisodes : Nat) :
    Bool × String × List (String × Value) :=
  match computeMetricsCore fetch numEpisodes with
  | some m => (true, "Successful submission", m)
  | none => (false, "Could not obtain an episode rollout!", [])

/-- The environment `perform_evaluation` runs against: the directory
listing and the outcome of each opaque external call. -/
structure Env where
  files : List String
  unitTestsOk : Bool
  configExists : Bool
  yamlOk : Bool
  createTrainerOk : Bool
  loadCheckpointsOk : Bool
  fetch : Nat → Option EpState
  gracefulCloseOk : Bool

/-- The tuple returned by `perform_evaluation`. -/
structure EvalResult where
  framework : Option String
  success : Bool
  metrics : List (String × Value)
  comment : String

/-- `perform_evaluation(results_dir, num_episodes, eval_seed)` (source
lines 221–308), paired with a flag recording whether
`trainer.graceful_close()` was invoked.  Control flow mirrors the nested
try/except blocks: a raise from the unit-test subprocess, from
`get_imports`, or from `yaml.safe_load` lands in the outermost handler
("Unit tests were not successful."); `create_trainer` and
`load_model_checkpoints` each have their own handler; after
`compute_metrics` (which never raises), `graceful_close` is called
whenever the framework is warpdrive, and if it raises, the handler of the
innermost try sets success=False and its comment but leaves
`eval_metrics` as already assigned.  The source asserts
`num_episodes > 0` on entry. -/
def perform_evaluation (env : Env) (resultsDir : String) (numEpisodes : Nat) :
    EvalResult × Bool :=
  let v := validate_dir env.files
  let framework := v.1
  if v.2.1 then
    if !env.unitTestsOk then
      (⟨framework, false, [], "Unit tests were not successful."⟩, false)
    else if !env.configExists then
      (⟨framework, false, [],
        "The run configuration is missing in " ++ resultsDir ++ "."⟩, false)
    else if !env.yamlOk then
      (⟨framework, false, [], "Unit tests were not successful."⟩, false)
    else if !env.createTrainerOk then
      (⟨framework, false, [],
        "Could not create trainer with the run_config provided."⟩, false)
    else if !env.loadCheckpointsOk then
      (⟨framework, false, [], "Could not load model checkpoints."⟩, false)
    else
      let r := compute_metrics env.fetch numEpisodes
      if framework == some "warpdrive" then
        if env.gracefulCloseOk then
          (⟨framework, r.1, r.2.2, r.2.1⟩, true)
        else
          (⟨framework, false, r.2.2,
            "Count not fetch episode and compute metrics."⟩, true)
      else
        (⟨framework, r.1, r.2.2, r.2.1⟩, false)
  else
    (⟨framework, v.2.1, [], v.2.2⟩, false)

/-- Sample episode states: every registered feature maps to the 2×1 array
[[1], [2]]. -/
def sampleState : EpState :=
  METRICS_TO_LABEL_DICT.map (fun e => (e.1, [[(1 : ℚ)], [(2 : ℚ)]]))

/-- Helper: the required-file loop succeeds when every required file is
present. -/
theorem checkRequiredFiles_all (files : List String) :
    ∀ req : List String, (∀ g ∈ req, files.contains g = true) →
      checkRequiredFiles files req = (true, "Valid submission") := by
  intro req
  induction req with
  | nil => intro _; rfl
  | cons g rest ih =>
    intro h
    simp only [checkRequiredFiles, h g (by simp)]
    exact ih (fun x hx => h x (by simp [hx]))

/-- Helper: the required-file loop stops at the first missing file and
names it in the comment. -/
theorem checkRequiredFiles_missing (files : List String) :
    ∀ (pre post : List String) (f : String),
      (∀ g ∈ pre, files.contains g = true) →
      files.contains f = false →
      checkRequiredFiles files (pre ++ f :: post) =
        (false, f ++ " is not present in the results directory!") := by
  intro pre
  induction pre with
  | nil =>
    intro post f _ hf
    rw [List.nil_append, checkRequiredFiles, if_neg (by rw [hf]; exact Bool.false_ne_true)]
  | cons g rest ih =>
    intro post f hpre hf
    have hg : files.contains g = true := hpre g (by simp)
    rw [List.cons_append, checkRequiredFiles, if_pos hg]
    exact ih post f (fun x hx => hpre x (by simp [hx])) hf

/-- Helper: `npMean` succeeds exactly on non-empty lists, with the sum
divided by the length. -/
theorem npMean_eq_some (xs : List ℚ) (m : ℚ) (h : npMean xs = some m) :
    xs ≠ [] ∧ m = xs.sum / (xs.length : ℚ) := by
  cases xs with
  | nil => simp [npMean] at h
  | cons a t =>
    simp only [npMean, Option.some.injEq] at h
    exact ⟨by simp, h.symm⟩

/-- Helper: inversion of one `scalarsFor` step. -/
theorem scalarsFor_cons_eq_some (feature : String) (st : EpState)
    (rest : List EpState) (vals : List ℚ)
    (h : scalarsFor feature (st :: rest) = some vals) :
    ∃ v vs, featureScalar feature st = some v ∧
      scalarsFor feature rest = some vs ∧ vals = v :: vs := by
  rw [scalarsFor] at h
  cases hv : featureScalar feature st with
  | none => rw [hv] at h; simp at h
  | some v =>
    rw [hv] at h
    cases hvs : scalarsFor feature rest with
    | none => rw [hvs] at h; simp at h
    | some vs =>
      rw [hvs] at h
      simp only [Option.some.injEq] at h
      exact ⟨v, vs, rfl, rfl, h.symm⟩

/-- Helper: inversion of one `aggregateFeatures` step. -/
theorem aggregateFeatures_cons_eq_some (states : List EpState)
    (feature label : String) (prec : Nat)
    (rest : List (String × String × Nat)) (m : List (String × Value))
    (h : aggregateFeatures states ((feature, label, prec) :: rest) = some m) :
    ∃ vals mean tail, scalarsFor feature states = some vals ∧
      npMean vals = some mean ∧ aggregateFeatures states rest = some tail ∧
      m = (label, perform_format mean prec) :: tail := by
  rw [aggregateFeatures] at h
  split at h
  next => simp at h
  next vals hvals =>
    split at h
    next => simp at h
    next mean hmean =>
      split at h
      next => simp at h
      next tail htail =>
        simp only [Option.some.injEq] at h
        exact ⟨vals, mean, tail, hvals, hmean, htail, h.symm⟩

/-- Helper: inversion of a successful `computeMetricsCore`. -/
theorem computeMetricsCore_eq_some (fetch : Nat → Option EpState) (n : Nat)
    (m : List (String × Value)) (h : computeMetricsCore fetch n = some m) :
    ∃ states, fetchEpisodes fetch n = some states ∧
      aggregateFeatures states METRICS_TO_LABEL_DICT = some m := by
  rw [computeMetricsCore] at h
  cases hst : fetchEpisodes fetch n with
  | none => rw [hst] at h; simp at h
  | some states => rw [hst] at h; exact ⟨states, rfl, h⟩

/-- Helper: a successful `scalarsFor` yields one scalar per episode. -/
theorem scalarsFor_length (feature : String) :
    ∀ (states : List EpState) (vals : List ℚ),
      scalarsFor feature states = some vals → vals.length = states.length := by
  intro states
  induction states with
  | nil =>
    intro vals h
    rw [scalarsFor] at h
    simp only [Option.some.injEq] at h
    rw [← h]
    rfl
  | cons st rest ih =>
    intro vals h
    obtain ⟨v, vs, _, hvs, rfl⟩ := scalarsFor_cons_eq_some feature st rest vals h
    simp [ih vs hvs]

/-- Helper: a successful feature aggregation produces exactly the
registered labels, in registry order. -/
theorem aggregateFeatures_labels :
    ∀ (reg : List (String × String × Nat)) (states : List EpState)
      (m : List (String × Value)),
      aggregateFeatures states reg = some m →
      m.map Prod.fst = reg.map (fun e => e.2.1) := by
  intro reg
  induction reg with
  | nil =>
    intro states m h
    rw [aggregateFeatures] at h
    simp only [Option.some.injEq] at h
    rw [← h]
    rfl
  | cons e rest ih =>
    intro states m h
    obtain ⟨f, l, p⟩ := e
    obtain ⟨vals, mean, tail, _, _, htail, rfl⟩ :=
      aggregateFeatures_cons_eq_some states f l p rest m h
    simp [ih states tail htail]

/-- Helper: a successful feature aggregation holds, for every registry
entry, the formatted mean of that feature across episodes. -/
theorem aggregateFeatures_mem :
    ∀ (reg : List (String × String × Nat)) (states : List EpState)
      (m : List (String × Value)) (feature label : String) (prec : Nat)
      (vals : List ℚ),
      aggregateFeatures states reg = some m →
      (feature, label, prec) ∈ reg →
      scalarsFor feature states = some vals →
      vals ≠ [] ∧
        (label, perform_format (vals.sum / (vals.length : ℚ)) prec) ∈ m := by
  intro reg
  induction reg with
  | nil =>
    intro _ _ _ _ _ _ _ hmem _
    simp at hmem
  | cons e rest ih =>
    intro states m feature label prec vals hagg hmem hsc
    obtain ⟨f, l, p⟩ := e
    obtain ⟨vals0, mean, tail, hvals0, hmean, htail, rfl⟩ :=
      aggregateFeatures_cons_eq_some states f l p rest m hagg
    rcases List.mem_cons.mp hmem with heq | hmem0
    · obtain ⟨h1, h2, h3⟩ : feature = f ∧ label = l ∧ prec = p := by
        simpa using heq
      subst h1; subst h2; subst h3
      rw [hsc] at hvals0
      obtain rfl : vals = vals0 := by simpa using hvals0
      obtain ⟨hne, rfl⟩ := npMean_eq_some vals mean hmean
      exact ⟨hne, List.mem_cons_self ..⟩
    · obtain ⟨hne, hmem1⟩ := ih states tail feature label prec vals htail hmem0 hsc
      exact ⟨hne, List.mem_cons_of_mem _ hmem1⟩

/-- Helper: when `compute_metrics` reports failure, its metrics are empty. -/
theorem compute_metrics_empty_of_failure (fetch : Nat → Option EpState)
    (n : Nat) (h : (compute_metrics fetch n).1 = false) :
    (compute_metrics fetch n).2.2 = [] := by
  unfold compute_metrics at h ⊢
  cases hcm : computeMetricsCore fetch n with
  | none => rfl
  | some m => rw [hcm] at h; simp at h

/-- Helper: the framework the evaluation returns is always the one
`validate_dir` determined. -/
theorem perform_evaluation_framework (env : Env) (dir : String) (n : Nat) :
    (perform_evaluation env dir n).1.framework = (validate_dir env.files).1 := by
  simp only [perform_evaluation]
  repeat' split
  all_goals rfl

/-- C1: for every fetch function (the trainer is carried inside it), valid
framework tag and episode count, if any exception is raised at any point
during the episode loop or the metric aggregation of `compute_metrics`
(that is, if the body of its `try` fails), then `compute_metrics` returns
success=false, the comment "Could not obtain an episode rollout!", and an
empty metrics mapping; and it never returns a partially filled metrics
mapping: a returned mapping is empty or carries every registered label. -/
theorem C1_exception_failure_triple (fetch : Nat → Option EpState) (n : Nat) :
    (computeMetricsCore fetch n = none →
      compute_metrics fetch n =
        (false, "Could not obtain an episode rollout!", [])) ∧
    (∀ s c m, compute_metrics fetch n = (s, c, m) →
      m = [] ∨ m.map Prod.fst = METRICS_TO_LABEL_DICT.map (fun e => e.2.1)) := by
  constructor
  · intro h
    unfold compute_metrics
    rw [h]
  · intro s c m hm
    unfold compute_metrics at hm
    cases hcore : computeMetricsCore fetch n with
    | none =>
      rw [hcore] at hm
      simp only [Prod.mk.injEq] at hm
      left
      exact hm.2.2.symm
    | some m0 =>
      rw [hcore] at hm
      simp only [Prod.mk.injEq] at hm
      right
      obtain ⟨states, _, hagg⟩ := computeMetricsCore_eq_some fetch n m0 hcore
      rw [← hm.2.2]
      exact aggregateFeatures_labels METRICS_TO_LABEL_DICT states m0 hagg

/-- C1 witness: a fetch function that raises on the very first episode. -/
theorem C1_witness :
    compute_metrics (fun _ => none) 1 =
      (false, "Could not obtain an episode rollout!", []) ∧
    (([] : List (String × Value)) = [] ∨
      ([] : List (String × Value)).map Prod.fst =
        METRICS_TO_LABEL_DICT.map (fun e => e.2.1)) :=
  ⟨(C1_exception_failure_triple (fun _ => none) 1).1 rfl,
   (C1_exception_failure_triple (fun _ => none) 1).2 false
     "Could not obtain an episode rollout!" []
     ((C1_exception_failure_triple (fun _ => none) 1).1 rfl)⟩

/-- C5: a directory holding a marker file but missing at least one of the
required companion files of its backend makes `validate_dir` return
success=false with a comment naming exactly the first missing file in the
fixed check order (later missing files are not reported). -/
theorem C5_first_missing_file (files pre post : List String) (f : String) :
    (files.contains ".warpdrive" = true →
      warpdriveRequired = pre ++ f :: post →
      (∀ g ∈ pre, files.contains g = true) →
      files.contains f = false →
      validate_dir files =
        (some "warpdrive", false,
          f ++ " is not present in the results directory!")) ∧
    (files.contains ".warpdrive" = false →
      files.contains ".rllib" = true →
      rllibRequired = pre ++ f :: post →
      (∀ g ∈ pre, files.contains g = true) →
      files.contains f = false →
      validate_dir files =
        (some "rllib", false,
          f ++ " is not present in the results directory!")) := by
  constructor
  · intro hw hreq hpre hf
    rw [validate_dir, if_pos hw, hreq,
      checkRequiredFiles_missing files pre post f hpre hf]
  · intro hnw hr hreq hpre hf
    rw [validate_dir, if_neg (by rw [hnw]; exact Bool.false_ne_true),
      if_pos hr, hreq, checkRequiredFiles_missing files pre post f hpre hf]

/-- C5 witness: a warpdrive directory missing its first required file, and
an rllib directory holding the first required file but not the second. -/
theorem C5_witness :
    validate_dir [".warpdrive"] =
      (some "warpdrive", false,
        "rice.py" ++ " is not present in the results directory!") ∧
    validate_dir [".rllib", "rice.py"] =
      (some "rllib", false,
        "rice_helpers.py" ++ " is not present in the results directory!") :=
  ⟨(C5_first_missing_file [".warpdrive"] []
      ["rice_helpers.py", "rice_cuda.py", "rice_step.cu", "rice_warpdrive.yaml"]
      "rice.py").1 (by decide) rfl (by decide) (by decide),
   (C5_first_missing_file [".rllib", "rice.py"] ["rice.py"] ["rice_rllib.yaml"]
      "rice_helpers.py").2 (by decide) (by decide) rfl (by decide) (by decide)⟩

/-- C6: a directory containing neither the `.warpdrive` nor the `.rllib`
marker, whatever else it holds, makes `validate_dir` return framework=None,
success=false and the comment "Missing identifier file!". -/
theorem C6_missing_identifier (files : List String)
    (hw : files.contains ".warpdrive" = false)
    (hr : files.contains ".rllib" = false) :
    validate_dir files = (none, false, "Missing identifier file!") := by
  rw [validate_dir, if_neg (by rw [hw]; exact Bool.false_ne_true),
    if_neg (by rw [hr]; exact Bool.false_ne_true)]

/-- C6 witness: a directory with files but no marker. -/
theorem C6_witness :
    validate_dir ["rice.py", "rice_helpers.py"] =
      (none, false, "Missing identifier file!") :=
  C6_missing_identifier ["rice.py", "rice_helpers.py"] (by decide) (by decide)

/-- C7: `perform_format(v, 0)` returns a Python integer equal to the
half-to-even rounding of `v` (the value of the builtin `round(v)`), and
for `k > 0`, `perform_format(v, k)` returns `v` rounded to `k` decimal
places and never an integer-typed value. -/
theorem C7_perform_format_rounding (v : ℚ) (k : Nat) :
    perform_format v 0 = Value.int (roundHalfEven v) ∧
    (0 < k →
      perform_format v k = Value.rat (npRound v k) ∧
      ∀ z : ℤ, perform_format v k ≠ Value.int z) := by
  constructor
  · have h0 : npRound v 0 = ((roundHalfEven v : ℤ) : ℚ) := by
      simp [npRound]
    have h1 : pyInt ((roundHalfEven v : ℤ) : ℚ) = roundHalfEven v := by
      simp [pyInt, Rat.num_intCast, Rat.den_intCast]
    simp [perform_format, h0, h1]
  · intro hk
    have hk0 : ¬(k = 0) := Nat.pos_iff_ne_zero.mp hk
    refine ⟨by simp only [perform_format, if_neg hk0], ?_⟩
    intro z h
    simp only [perform_format, if_neg hk0] at h
    exact Value.noConfusion h

/-- C7 witness: formatting the value 5/2 at precisions 0 and 1. -/
theorem C7_witness :
    perform_format ((5 : ℚ) / 2) 0 = Value.int (roundHalfEven ((5 : ℚ) / 2)) ∧
    perform_format ((5 : ℚ) / 2) 1 = Value.rat (npRound ((5 : ℚ) / 2) 1) ∧
    ∀ z : ℤ, perform_format ((5 : ℚ) / 2) 1 ≠ Value.int z :=
  ⟨(C7_perform_format_rounding ((5 : ℚ) / 2) 1).1,
   ((C7_perform_format_rounding ((5 : ℚ) / 2) 1).2 (by decide)).1,
   ((C7_perform_format_rounding ((5 : ℚ) / 2) 1).2 (by decide)).2⟩

/-- C10: when both marker files sit in the directory, `validate_dir`
selects the warpdrive backend (the `.warpdrive` check takes precedence)
and proceeds with the warpdrive required-file checks; duplicate markers
raise no failure, so with all five warpdrive files the submission is
valid. -/
theorem C10_warpdrive_precedence (files : List String)
    (hw : files.contains ".warpdrive" = true)
    (_hr : files.contains ".rllib" = true) :
    validate_dir files =
      (some "warpdrive", checkRequiredFiles files warpdriveRequired) ∧
    ((∀ g ∈ warpdriveRequired, files.contains g = true) →
      validate_dir files = (some "warpdrive", true, "Valid submission")) := by
  constructor
  · rw [validate_dir, if_pos hw]
  · intro hall
    rw [validate_dir, if_pos hw, checkRequiredFiles_all files warpdriveRequired hall]

/-- C10 witness: a directory with both markers and all five warpdrive
files. -/
theorem C10_witness :
    validate_dir
        [".warpdrive", ".rllib", "rice.py", "rice_helpers.py", "rice_cuda.py",
         "rice_step.cu", "rice_warpdrive.yaml"] =
      (some "warpdrive",
        checkRequiredFiles
          [".warpdrive", ".rllib", "rice.py", "rice_helpers.py", "rice_cuda.py",
           "rice_step.cu", "rice_warpdrive.yaml"] warpdriveRequired) ∧
    validate_dir
        [".warpdrive", ".rllib", "rice.py", "rice_helpers.py", "rice_cuda.py",
         "rice_step.cu", "rice_warpdrive.yaml"] =
      (some "warpdrive", true, "Valid submission") :=
  ⟨(C10_warpdrive_precedence
      [".warpdrive", ".rllib", "rice.py", "rice_helpers.py", "rice_cuda.py",
       "rice_step.cu", "rice_warpdrive.yaml"] (by decide) (by decide)).1,
   (C10_warpdrive_precedence
      [".warpdrive", ".rllib", "rice.py", "rice_helpers.py", "rice_cuda.py",
       "rice_step.cu", "rice_warpdrive.yaml"] (by decide) (by decide)).2
     (by decide)⟩

/-- C3: per episode, the scalar for `global_temperature` is
array[-1,0] - array[0,0], for `global_carbon_mass` it is array[-1,0], and
for every other feature it is the sum over the entire array; the reported
metric of each registered feature is the mean of these per-episode scalars
over all episodes, formatted at the configured precision. -/
theorem C3_reduction_rules :
    (∀ (st : EpState) (a : Arr) (r1 r2 : List ℚ) (x y : ℚ),
        st.lookup "global_temperature" = some a →
        a.getLast? = some r2 → r2.head? = some y →
        a.head? = some r1 → r1.head? = some x →
        featureScalar "global_temperature" st = some (y - x)) ∧
    (∀ (st : EpState) (a : Arr) (r : List ℚ) (y : ℚ),
        st.lookup "global_carbon_mass" = some a →
        a.getLast? = some r → r.head? = some y →
        featureScalar "global_carbon_mass" st = some y) ∧
    (∀ feature : String, feature ≠ "global_temperature" →
        feature ≠ "global_carbon_mass" →
        ∀ (st : EpState) (a : Arr), st.lookup feature = some a →
        featureScalar feature st = some ((a.map List.sum).sum)) ∧
    (∀ (states : List EpState) (m : List (String × Value))
        (feature label : String) (prec : Nat) (vals : List ℚ),
        aggregateFeatures states METRICS_TO_LABEL_DICT = some m →
        (feature, label, prec) ∈ METRICS_TO_LABEL_DICT →
        scalarsFor feature states = some vals →
        vals.length = states.length ∧ vals ≠ [] ∧
          (label, perform_format (vals.sum / (vals.length : ℚ)) prec) ∈ m) := by
  refine ⟨?_, ?_, ?_, ?_⟩
  · intro st a r1 r2 x y hl hlast hy hhead hx
    simp [featureScalar, hl, hlast, hhead, hy, hx]
  · intro st a r y hl hlast hy
    simp [featureScalar, hl, hlast, hy]
  · intro feature hne1 hne2 st a hl
    simp [featureScalar, hne1, hne2, hl, arrSum]
  · intro states m feature label prec vals hagg hmem hsc
    obtain ⟨hne, hmm⟩ :=
      aggregateFeatures_mem METRICS_TO_LABEL_DICT states m feature label prec
        vals hagg hmem hsc
    exact ⟨scalarsFor_length feature states vals hsc, hne, hmm⟩

/-- C3 witness: concrete episode states exercising all three reduction
rules and the aggregated mean of one registered feature. -/
theorem C3_witness :
    featureScalar "global_temperature"
        [("global_temperature", ([[(1 : ℚ)], [(3 : ℚ)]] : Arr))] =
      some (3 - 1) ∧
    featureScalar "global_carbon_mass"
        [("global_carbon_mass", ([[(4 : ℚ)]] : Arr))] = some 4 ∧
    featureScalar "reward_all_regions"
        [("reward_all_regions", ([[(1 : ℚ), (2 : ℚ)]] : Arr))] =
      some ((([[(1 : ℚ), (2 : ℚ)]] : Arr).map List.sum).sum) ∧
    (((scalarsFor "reward_all_regions" [sampleState]).getD []).length =
        [sampleState].length ∧
      (scalarsFor "reward_all_regions" [sampleState]).getD [] ≠ [] ∧
      ("Total Episode Reward",
        perform_format
          (((scalarsFor "reward_all_regions" [sampleState]).getD []).sum /
            ((((scalarsFor "reward_all_regions" [sampleState]).getD
                []).length : ℚ))) 2) ∈
        (aggregateFeatures [sampleState] METRICS_TO_LABEL_DICT).getD []) :=
  ⟨C3_reduction_rules.1 _ _ [(1 : ℚ)] [(3 : ℚ)] 1 3 rfl rfl rfl rfl rfl,
   C3_reduction_rules.2.1 _ _ [(4 : ℚ)] 4 rfl rfl rfl,
   C3_reduction_rules.2.2.1 "reward_all_regions" (by decide) (by decide) _ _
     rfl,
   C3_reduction_rules.2.2.2 [sampleState]
     ((aggregateFeatures [sampleState] METRICS_TO_LABEL_DICT).getD [])
     "reward_all_regions" "Total Episode Reward" 2
     ((scalarsFor "reward_all_regions" [sampleState]).getD [])
     rfl (by decide) rfl⟩

/-- Environment of a fully valid warpdrive submission whose
`graceful_close` raises after metrics were successfully computed. -/
def envCloseFails : Env :=
  { files := [".warpdrive", "rice.py", "rice_helpers.py", "rice_cuda.py",
              "rice_step.cu", "rice_warpdrive.yaml"],
    unitTestsOk := true, configExists := true, yamlOk := true,
    createTrainerOk := true, loadCheckpointsOk := true,
    fetch := fun _ => some sampleState,
    gracefulCloseOk := false }

/-- C2 counterexample: with a valid warpdrive submission whose
`graceful_close` raises after `compute_metrics` succeeded, the evaluation
returns success=false while the metrics mapping still carries all eight
computed metrics — so a false success flag does not imply empty metrics. -/
theorem C2_counterexample :
    (perform_evaluation envCloseFails "results" 5).1.success = false ∧
    (perform_evaluation envCloseFails "results" 5).1.metrics.map Prod.fst =
      METRICS_TO_LABEL_DICT.map (fun e => e.2.1) :=
  ⟨rfl, rfl⟩

/-- C2 (amended): whenever `perform_evaluation` returns success=false, the
returned metrics mapping is empty, unless `compute_metrics` succeeded for
a warpdrive submission and the subsequent `graceful_close` raised, in
which case the fully computed metrics are returned alongside
success=false; every stage failure still yields a well-formed
(framework, success, metrics, comment) tuple. -/
theorem C2_failure_metrics_amended (env : Env) (dir : String) (n : Nat)
    (_hn : 0 < n) :
    (perform_evaluation env dir n).1.success = false →
      (perform_evaluation env dir n).1.metrics = [] ∨
        ((perform_evaluation env dir n).1.framework = some "warpdrive" ∧
         env.gracefulCloseOk = false ∧
         (compute_metrics env.fetch n).1 = true ∧
         (perform_evaluation env dir n).1.metrics =
           (compute_metrics env.fetch n).2.2 ∧
         (perform_evaluation env dir n).1.comment =
           "Count not fetch episode and compute metrics.") := by
  intro hfail
  cases h1 : (validate_dir env.files).2.1 with
  | false => left; simp [perform_evaluation, h1]
  | true =>
  cases h2 : env.unitTestsOk with
  | false => left; simp [perform_evaluation, h1, h2]
  | true =>
  cases h3 : env.configExists with
  | false => left; simp [perform_evaluation, h1, h2, h3]
  | true =>
  cases h4 : env.yamlOk with
  | false => left; simp [perform_evaluation, h1, h2, h3, h4]
  | true =>
  cases h5 : env.createTrainerOk with
  | false => left; simp [perform_evaluation, h1, h2, h3, h4, h5]
  | true =>
  cases h6 : env.loadCheckpointsOk with
  | false => left; simp [perform_evaluation, h1, h2, h3, h4, h5, h6]
  | true =>
  cases hw : ((validate_dir env.files).1 == some "warpdrive") with
  | false =>
    simp only [perform_evaluation, h1, h2, h3, h4, h5, h6, hw] at hfail ⊢
    simp at hfail
    left
    simp [compute_metrics_empty_of_failure env.fetch n hfail]
  | true =>
  cases hg : env.gracefulCloseOk with
  | true =>
    simp only [perform_evaluation, h1, h2, h3, h4, h5, h6, hw, hg] at hfail ⊢
    simp at hfail
    left
    simp [compute_metrics_empty_of_failure env.fetch n hfail]
  | false =>
    cases hcm : (compute_metrics env.fetch n).1 with
    | false =>
      left
      simp [perform_evaluation, h1, h2, h3, h4, h5, h6, hw, hg,
        compute_metrics_empty_of_failure env.fetch n hcm]
    | true =>
      right
      refine ⟨?_, rfl, rfl, ?_, ?_⟩
      · rw [perform_evaluation_framework]
        exact beq_iff_eq.mp hw
      · simp [perform_evaluation, h1, h2, h3, h4, h5, h6, hw, hg]
      · simp [perform_evaluation, h1, h2, h3, h4, h5, h6, hw, hg]

/-- Environment of a submission directory with no marker file. -/
def envNoMarker : Env :=
  { files := ["rice.py"], unitTestsOk := true, configExists := true,
    yamlOk := true, createTrainerOk := true, loadCheckpointsOk := true,
    fetch := fun _ => some sampleState, gracefulCloseOk := true }

/-- C2 witness: a failing validation yields empty metrics. -/
theorem C2_witness :
    (perform_evaluation envNoMarker "results" 1).1.metrics = [] ∨
      ((perform_evaluation envNoMarker "results" 1).1.framework =
         some "warpdrive" ∧
       envNoMarker.gracefulCloseOk = false ∧
       (compute_metrics envNoMarker.fetch 1).1 = true ∧
       (perform_evaluation envNoMarker "results" 1).1.metrics =
         (compute_metrics envNoMarker.fetch 1).2.2 ∧
       (perform_evaluation envNoMarker "results" 1).1.comment =
         "Count not fetch episode and compute metrics.") :=
  C2_failure_metrics_amended envNoMarker "results" 1 (by decide) rfl

/-- C4: only for the warpdrive backend is `graceful_close` invoked on the
trainer, after a successful metric computation; for the rllib backend no
shutdown is ever performed. -/
theorem C4_graceful_close_warpdrive_only (env : Env) (dir : String) (n : Nat) :
    ((perform_evaluation env dir n).1.framework = some "rllib" →
      (perform_evaluation env dir n).2 = false) ∧
    ((validate_dir env.files).1 = some "warpdrive" →
      (validate_dir env.files).2.1 = true →
      env.unitTestsOk = true → env.configExists = true → env.yamlOk = true →
      env.createTrainerOk = true → env.loadCheckpointsOk = true →
      (compute_metrics env.fetch n).1 = true →
      (perform_evaluation env dir n).2 = true) := by
  constructor
  · intro h
    rw [perform_evaluation_framework] at h
    have hbeq : ((validate_dir env.files).1 == some "warpdrive") = false := by
      rw [h]; decide
    cases h1 : (validate_dir env.files).2.1 <;>
      cases h2 : env.unitTestsOk <;> cases h3 : env.configExists <;>
      cases h4 : env.yamlOk <;> cases h5 : env.createTrainerOk <;>
      cases h6 : env.loadCheckpointsOk <;>
      simp [perform_evaluation, h1, h2, h3, h4, h5, h6, hbeq]
  · intro hfw h1 h2 h3 h4 h5 h6 _
    have hbeq : ((validate_dir env.files).1 == some "warpdrive") = true := by
      rw [hfw]; decide
    cases hg : env.gracefulCloseOk <;>
      simp [perform_evaluation, h1, h2, h3, h4, h5, h6, hbeq, hg]

/-- Environment of a fully valid rllib submission. -/
def envRllibOk : Env :=
  { files := [".rllib", "rice.py", "rice_helpers.py", "rice_rllib.yaml"],
    unitTestsOk := true, configExists := true, yamlOk := true,
    createTrainerOk := true, loadCheckpointsOk := true,
    fetch := fun _ => some sampleState, gracefulCloseOk := true }

/-- Environment of a fully valid warpdrive submission. -/
def envWarpOk : Env :=
  { files := [".warpdrive", "rice.py", "rice_helpers.py", "rice_cuda.py",
              "rice_step.cu", "rice_warpdrive.yaml"],
    unitTestsOk := true, configExists := true, yamlOk := true,
    createTrainerOk := true, loadCheckpointsOk := true,
    fetch := fun _ => some sampleState, gracefulCloseOk := true }

/-- C4 witness: a successful rllib evaluation performs no shutdown, a
successful warpdrive evaluation does. -/
theorem C4_witness :
    (perform_evaluation envRllibOk "results" 5).2 = false ∧
    (perform_evaluation envWarpOk "results" 5).2 = true :=
  ⟨(C4_graceful_close_warpdrive_only envRllibOk "results" 5).1 rfl,
   (C4_graceful_close_warpdrive_only envWarpOk "results" 5).2
     rfl rfl rfl rfl rfl rfl rfl rfl⟩

/-- C8: once validation and the unit tests succeed, a missing run
configuration file makes the evaluation return success=false with the
comment naming the results directory, raising nothing (the function still
returns a well-formed tuple, with no shutdown performed). -/
theorem C8_missing_config (env : Env) (dir : String) (n : Nat)
    (hv : (validate_dir env.files).2.1 = true)
    (hut : env.unitTestsOk = true)
    (hcf : env.configExists = false) :
    perform_evaluation env dir n =
      (⟨(validate_dir env.files).1, false, [],
        "The run configuration is missing in " ++ dir ++ "."⟩, false) := by
  simp [perform_evaluation, hv, hut, hcf]

/-- Environment of a valid rllib submission whose configuration file is
absent. -/
def envNoConfig : Env :=
  { files := [".rllib", "rice.py", "rice_helpers.py", "rice_rllib.yaml"],
    unitTestsOk := true, configExists := false, yamlOk := true,
    createTrainerOk := true, loadCheckpointsOk := true,
    fetch := fun _ => some sampleState, gracefulCloseOk := true }

/-- C8 witness: a valid rllib directory without `rice_rllib.yaml` present
at evaluation time. -/
theorem C8_witness :
    perform_evaluation envNoConfig "submission" 5 =
      (⟨(validate_dir envNoConfig.files).1, false, [],
        "The run configuration is missing in " ++ "submission" ++ "."⟩,
       false) :=
  C8_missing_config envNoConfig "submission" 5 rfl rfl rfl

/-- C9: when the configuration file exists but parsing it raises, the
exception lands in the outermost handler, so the evaluation returns
success=false with the generic comment "Unit tests were not successful.",
not a configuration-specific one. -/
theorem C9_yaml_error_generic_comment (env : Env) (dir : String) (n : Nat)
    (hv : (validate_dir env.files).2.1 = true)
    (hut : env.unitTestsOk = true)
    (hcf : env.configExists = true)
    (hym : env.yamlOk = false) :
    perform_evaluation env dir n =
      (⟨(validate_dir env.files).1, false, [],
        "Unit tests were not successful."⟩, false) := by
  simp [perform_evaluation, hv, hut, hcf, hym]

/-- Environment of a valid rllib submission whose configuration file
exists but fails to parse. -/
def envYamlFails : Env :=
  { files := [".rllib", "rice.py", "rice_helpers.py", "rice_rllib.yaml"],
    unitTestsOk := true, configExists := true, yamlOk := false,
    createTrainerOk := true, loadCheckpointsOk := true,
    fetch := fun _ => some sampleState, gracefulCloseOk := true }

/-- C9 witness: an unparsable configuration in a valid rllib directory. -/
theorem C9_witness :
    perform_evaluation envYamlFails "results" 5 =
      (⟨(validate_dir envYamlFails.files).1, false, [],
        "Unit tests were not successful."⟩, false) :=
  C9_yaml_error_generic_comment envYamlFails "results" 5 rfl rfl rfl rfl

end Rice
